import Mathlib

/-!
Verification of the conversational core of `voice_api.py`.

The file embeds the `/chat` handler (`chat`, lines 80–103 of
`voice_api.py`) and the session store (`SESSIONS`, line 26) as pure Lean
functions, and proves or refutes the specified properties of the
per-session conversational context manager.

Modelling notes, justified line by line against the source:

* A message is the dict `{"role": r, "content": c}` (line 26, 85, 87, 98).
* `SESSIONS` is a dict from session id to a list of messages (line 26);
  it is modelled as a function `String → Option (List Message)`, with
  `SESSIONS.get sid` being application and assignment being pointwise
  update.
* The external chat-completion call (lines 89–95) is the only failure
  source inside the `try` block that the specified properties mention; it
  is modelled as a parameter
  `ext : List Message → Except String String` mapping the outgoing
  message window to either a reply string (`resp.choices[0].message.content`)
  or the string of the raised exception (`str(e)`, line 103).
* Python aliasing is modelled explicitly: `history = SESSIONS.get(...)`
  (line 83) makes `history` an alias of the stored list when the stored
  value is a non-empty list (a non-empty list is truthy, so line 84 does
  not rebind it), and the in-place `history.append(...)` on line 87 is
  then visible in the store even if the external call later raises.  When
  the session is absent or stored as the empty list (falsy), line 85
  rebinds `history` to a fresh list and the store is untouched until the
  assignment on line 99.
* `history[-(2*MAX_TURNS+1):]` (lines 91 and 99) is the Python tail
  slice: the last `2*MAX_TURNS+1` elements, or the whole list when it is
  shorter.
-/

/-- Role of one message: the `"role"` field of the message dicts built on
lines 85, 87 and 98 of `voice_api.py` (`"system"`, `"user"`,
`"assistant"`). -/
inductive Role where
  | system
  | user
  | assistant
deriving DecidableEq, Repr

/-- One message dict `{"role": ..., "content": ...}` (line 26 of
`voice_api.py`). -/
structure Message where
  role : Role
  content : String
deriving DecidableEq, Repr

/-- A stored per-session history: a list of messages (line 26). -/
abbrev History := List Message

/-- The `SESSIONS` dict (line 26): session id to stored history. -/
abbrev Store := String → Option History

/-- The empty `SESSIONS = {}` dict (line 26). -/
def emptyStore : Store := fun _ => none

/-- Dict assignment `SESSIONS[session_id] = h` (line 99). -/
def storePut (sessions : Store) (session_id : String) (h : History) : Store :=
  fun k => if k = session_id then some h else sessions k

/-- The `MAX_TURNS = 10` constant (line 27 of `voice_api.py`). -/
def MAX_TURNS : Nat := 10

/-- The `SYSTEM_PROMPT` string (lines 39–69 of `voice_api.py`),
embedded verbatim. -/
def SYSTEM_PROMPT : String := "
You are a warm, helpful hotel booking assistant speaking with a guest by voice.
Your goals:
- Be natural, brief, and human. Sound like a concierge, not a form.
- Ask at most 1–2 things at a time and adapt to what the guest already said.
- Confirm what you’ve understood in a short sentence before asking the next thing.
- Offer helpful suggestions (e.g., “Would a queen room work?”) instead of rigid checklists.

Conversation style:
- Start with a friendly opener, then ask a single focused question to move things forward.
- Use short sentences, everyday words, and positive tone.
- If the guest gives partial info, acknowledge it and ask the next most useful detail.
- When dates are vague, gently clarify (“Which Friday did you have in mind?”).
- If the guest is unsure, offer choices.

Information to collect naturally over time (not all at once):
- Check-in and check-out dates
- Number of adults, children, pets
- Guest name and phone (only near the end)
- Any extras (parking), special requests (late check-in, crib, accessibility)

Confirmations:
- When enough info is available, summarize concisely and confirm (“I have you for Fri–Sun, 2 adults, no kids, no pets. Should I book that?”).
- If something’s missing or ambiguous, ask just one crisp follow-up.

Tone examples:
- “Great, thank you! For the dates, were you thinking this weekend or next?”
- “Got it—2 adults for two nights. Would you like a queen or twin room?”

Never mention policies, tokens, or internal rules. Keep answers under 2–3 sentences unless the guest asks for detail.
"

/-- The one-element fresh history `[{"role": "system", "content": SYSTEM_PROMPT}]`
built on line 85 of `voice_api.py`. -/
def systemMessage : Message := ⟨Role.system, SYSTEM_PROMPT⟩

/-- The Python tail slice `l[-(n):]` for `n ≥ 1`: the last `n` elements of
`l`, or all of `l` when `l` is shorter than `n`. -/
def lastN (n : Nat) (l : List α) : List α :=
  l.drop (l.length - n)

/-- Lines 83–85 of `voice_api.py`:
`history = SESSIONS.get(session_id); if not history: history = [system]`.
A missing entry (`None`) and a stored empty list are both falsy, so both
give the fresh one-element system history. -/
def getOrCreate (sessions : Store) (session_id : String) : History :=
  match sessions session_id with
  | some h => if h.isEmpty then [systemMessage] else h
  | none => [systemMessage]

/-- Whether `history` on line 83 aliases the list object stored in
`SESSIONS`: true exactly when the stored value is a truthy (non-empty)
list, since then line 84 does not rebind `history` and the in-place
append on line 87 mutates the stored list. -/
def storedAliased (sessions : Store) (session_id : String) : Bool :=
  match sessions session_id with
  | some h => !h.isEmpty
  | none => false

/-- The user-appended history of line 87: `history.append({"role": "user",
"content": text})` applied to the result of lines 83–85. -/
def userAppended (sessions : Store) (session_id text : String) : History :=
  getOrCreate sessions session_id ++ [⟨Role.user, text⟩]

/-- The outgoing message window `history[-(2*maxTurns+1):]` sent to the
external chat service on line 91 of `voice_api.py`. -/
def outgoingWindow (maxTurns : Nat) (sessions : Store) (session_id text : String) :
    List Message :=
  lastN (2 * maxTurns + 1) (userAppended sessions session_id text)

/-- The value returned by the `chat` handler: `{"reply": reply}` on the
success path (line 101), or the 500 payload
`{"error": "server_error", "message": str(e)}` (line 103). -/
inductive ChatResponse where
  | ok (reply : String)
  | serverError (message : String)
deriving DecidableEq, Repr

/-- The `/chat` handler (lines 80–103 of `voice_api.py`), parametrised by
the truncation constant `maxTurns` and by the external chat-completion
call `ext`.  Returns the HTTP response together with the `SESSIONS` dict
after the request.

On the success path the handler appends the assistant reply (line 98) and
stores the tail window (line 99).  When the external call raises, the
`except` branch (lines 102–103) returns the 500 payload; the store then
still holds the in-place user append of line 87 whenever `history`
aliased the stored list (see `storedAliased`), and is untouched
otherwise. -/
def chatWith (maxTurns : Nat) (ext : List Message → Except String String)
    (sessions : Store) (session_id text : String) : ChatResponse × Store :=
  match ext (outgoingWindow maxTurns sessions session_id text) with
  | Except.error e =>
      (ChatResponse.serverError e,
        if storedAliased sessions session_id then
          storePut sessions session_id (userAppended sessions session_id text)
        else sessions)
  | Except.ok reply =>
      (ChatResponse.ok reply,
        storePut sessions session_id
          (lastN (2 * maxTurns + 1)
            (userAppended sessions session_id text ++ [⟨Role.assistant, reply⟩])))

/-- The `/chat` handler with the configured `MAX_TURNS = 10`. -/
def chat (ext : List Message → Except String String)
    (sessions : Store) (session_id text : String) : ChatResponse × Store :=
  chatWith MAX_TURNS ext sessions session_id text

/-- A sequence of `/chat` requests on one session, one request per element
of `texts`, threading the store. -/
def runTurns (maxTurns : Nat) (ext : List Message → Except String String)
    (session_id : String) (texts : List String) (sessions : Store) : Store :=
  match texts with
  | [] => sessions
  | t :: ts => runTurns maxTurns ext session_id ts
      (chatWith maxTurns ext sessions session_id t).2

/-- An external chat service that always succeeds with the fixed reply
`"r"`, used to instantiate theorems at concrete inputs. -/
def alwaysReply : List Message → Except String String :=
  fun _ => Except.ok "r"

/-- An external chat service that always raises, modelling a failing
upstream call (`str(e)` is the fixed message `"boom"`). -/
def alwaysFail : List Message → Except String String :=
  fun _ => Except.error "boom"

/-- An external chat service whose reply records the length of the
message window it received, so that successive replies are
distinguishable (they stand for the R1, R2, R3 of the specified
scenarios). -/
def replyByLength : List Message → Except String String :=
  fun msgs => Except.ok ("R" ++ toString msgs.length)

/-- Length of the Python tail slice: `min n l.length`. -/
theorem lastN_length (n : Nat) (l : List α) : (lastN n l).length = min n l.length := by
  simp [lastN]
  omega

/-- The tail slice keeps the whole list when it already fits. -/
theorem lastN_of_le {n : Nat} {l : List α} (h : l.length ≤ n) : lastN n l = l := by
  unfold lastN
  rw [Nat.sub_eq_zero_of_le h]
  exact List.drop_zero l

/-- A session stored as a non-empty list is returned as-is by
lines 83–84 (a non-empty list is truthy). -/
theorem getOrCreate_of_stored {sessions : Store} {session_id : String} {h : History}
    (hs : sessions session_id = some h) (hne : h ≠ []) :
    getOrCreate sessions session_id = h := by
  cases h with
  | nil => exact absurd rfl hne
  | cons a as => simp [getOrCreate, hs]

/-- C7: for every `/chat` request, the handler returns either the success
payload `{reply: string}` or the 500 payload
`{error: "server_error", message: string}`; as a total function of its
inputs it never crashes the process. -/
theorem C7_response_shape (ext : List Message → Except String String)
    (sessions : Store) (session_id text : String) :
    (∃ r, (chat ext sessions session_id text).1 = ChatResponse.ok r) ∨
    (∃ m, (chat ext sessions session_id text).1 = ChatResponse.serverError m) := by
  unfold chat chatWith
  cases hw : ext (outgoingWindow MAX_TURNS sessions session_id text) with
  | error e => exact Or.inr ⟨e, by simp [hw]⟩
  | ok r => exact Or.inl ⟨r, by simp [hw]⟩

/-- C9: a `/chat` call on session `session_id` leaves the stored history
of every other session `t` unchanged, whether the external call succeeds
or fails. -/
theorem C9_other_sessions_unchanged (ext : List Message → Except String String)
    (sessions : Store) (session_id text t : String) (hne : t ≠ session_id) :
    (chat ext sessions session_id text).2 t = sessions t := by
  unfold chat chatWith
  cases hw : ext (outgoingWindow MAX_TURNS sessions session_id text) with
  | error e =>
      simp only [hw]
      split
      · simp [storePut, hne]
      · rfl
  | ok r => simp [hw, storePut, hne]

/-- C9 witness at a concrete input. -/
theorem C9_other_sessions_unchanged_witness :
    (chat alwaysReply emptyStore "s" "hi").2 "t" = emptyStore "t" :=
  C9_other_sessions_unchanged alwaysReply emptyStore "s" "hi" "t" (by decide)

/-- C6: an unseen `session_id` is not an error: lines 83–85 create the
one-element system history on demand, and when the external call succeeds
the handler returns the 200 success payload with the reply. -/
theorem C6_unseen_created (ext : List Message → Except String String)
    (sessions : Store) (session_id text r : String)
    (hunseen : sessions session_id = none)
    (hok : ext (outgoingWindow MAX_TURNS sessions session_id text) = Except.ok r) :
    getOrCreate sessions session_id = [systemMessage] ∧
    (chat ext sessions session_id text).1 = ChatResponse.ok r := by
  refine ⟨by simp [getOrCreate, hunseen], ?_⟩
  unfold chat chatWith
  simp [hok]

/-- C6 witness at a concrete input. -/
theorem C6_unseen_created_witness :
    getOrCreate emptyStore "s" = [systemMessage] ∧
    (chat alwaysReply emptyStore "s" "hi").1 = ChatResponse.ok "r" :=
  C6_unseen_created alwaysReply emptyStore "s" "hi" "r" rfl rfl

/-- C10: a session stored as the empty list is treated like an unseen
one: lines 83–85 discard the falsy empty list and start from the fresh
one-element system history, the user turn is appended to that fresh list
(not to the empty list), the response equals the response for the same
request on a store without the entry, and so does the stored history
after a successful call. -/
theorem C10_empty_list_like_unseen (ext : List Message → Except String String)
    (sessions : Store) (session_id text : String)
    (hempty : sessions session_id = some []) :
    getOrCreate sessions session_id = [systemMessage] ∧
    userAppended sessions session_id text = [systemMessage, ⟨Role.user, text⟩] ∧
    (chat ext sessions session_id text).1
      = (chat ext (fun k => if k = session_id then none else sessions k) session_id text).1 ∧
    ∀ r, ext (outgoingWindow MAX_TURNS sessions session_id text) = Except.ok r →
      (chat ext sessions session_id text).2 session_id
        = (chat ext (fun k => if k = session_id then none else sessions k) session_id text).2
            session_id := by
  have hg : getOrCreate sessions session_id = [systemMessage] := by
    simp [getOrCreate, hempty]
  have hg2 : getOrCreate (fun k => if k = session_id then none else sessions k) session_id
      = [systemMessage] := by
    simp [getOrCreate]
  have hwin : outgoingWindow MAX_TURNS (fun k => if k = session_id then none else sessions k)
      session_id text = outgoingWindow MAX_TURNS sessions session_id text := by
    simp [outgoingWindow, userAppended, hg, hg2]
  refine ⟨hg, by simp [userAppended, hg], ?_, ?_⟩
  · unfold chat chatWith
    rw [hwin]
    cases hw : ext (outgoingWindow MAX_TURNS sessions session_id text) <;> simp [hw]
  · intro r hok
    unfold chat chatWith
    rw [hwin, hok]
    simp [storePut, userAppended, hg, hg2]

/-- C10 witness at a concrete input. -/
theorem C10_empty_list_like_unseen_witness :
    (chat alwaysReply (storePut emptyStore "s" []) "s" "hi").2 "s"
      = (chat alwaysReply (fun k => if k = "s" then none else storePut emptyStore "s" [] k)
          "s" "hi").2 "s" :=
  (C10_empty_list_like_unseen alwaysReply (storePut emptyStore "s" []) "s" "hi"
    (by simp [storePut])).2.2.2 "r" rfl

/-- C1 counterexample: for a session whose history is already stored
(here `"s" ↦ [systemMessage]`), a failing external call does NOT leave
the stored history identical: `history` on line 83 aliases the stored
list, so the in-place user append of line 87 is already visible in
`SESSIONS` when the exception propagates to line 102.  Afterwards the
store holds `[systemMessage, user "hi"]`, not `[systemMessage]`. -/
theorem C1_counterexample :
    (chat alwaysFail (storePut emptyStore "s" [systemMessage]) "s" "hi").2 "s"
      ≠ (storePut emptyStore "s" [systemMessage]) "s" := by
  simp [chat, chatWith, alwaysFail, storedAliased, storePut, userAppended, getOrCreate,
    emptyStore, outgoingWindow]

/-- C1 amended: when the external chat call fails, the store for the
session is unchanged only if the session was unseen or stored empty
(falsy, so line 85 rebinds `history` to a fresh list); for a stored
non-empty history `h` the stored value after the failed call is
`h ++ [user text]` — the user turn is persisted through list aliasing,
with no assistant message and no truncation. -/
theorem C1_failure_persistence (ext : List Message → Except String String)
    (sessions : Store) (session_id text e : String)
    (hfail : ext (outgoingWindow MAX_TURNS sessions session_id text) = Except.error e) :
    (sessions session_id = none → (chat ext sessions session_id text).2 = sessions) ∧
    (sessions session_id = some [] → (chat ext sessions session_id text).2 = sessions) ∧
    (∀ h, sessions session_id = some h → h ≠ [] →
      (chat ext sessions session_id text).2 session_id
        = some (h ++ [⟨Role.user, text⟩])) := by
  refine ⟨?_, ?_, ?_⟩
  · intro hnone
    unfold chat chatWith
    simp [hfail, storedAliased, hnone]
  · intro hempty
    unfold chat chatWith
    simp [hfail, storedAliased, hempty]
  · intro h hs hne
    have hb : storedAliased sessions session_id = true := by
      cases h with
      | nil => exact absurd rfl hne
      | cons a as => simp [storedAliased, hs]
    unfold chat chatWith
    rw [hfail]
    simp [hb, storePut, userAppended, getOrCreate_of_stored hs hne]

/-- C1 amended witness at a concrete input: the failed call persists the
user turn for a stored non-empty session. -/
theorem C1_failure_persistence_witness :
    (chat alwaysFail (storePut emptyStore "s" [systemMessage]) "s" "hi").2 "s"
      = some ([systemMessage] ++ [⟨Role.user, "hi"⟩]) :=
  (C1_failure_persistence alwaysFail (storePut emptyStore "s" [systemMessage]) "s" "hi"
      "boom" rfl).2.2 [systemMessage] (by simp [storePut]) (by simp)

/-- Canonical form of the store after a successful `chatWith` call: the
session maps to the tail window of the history with the user and
assistant turns appended (lines 98–99). -/
theorem chatWith_ok_store (maxTurns : Nat) (ext : List Message → Except String String)
    (sessions : Store) (session_id text r : String)
    (hok : ext (outgoingWindow maxTurns sessions session_id text) = Except.ok r) :
    (chatWith maxTurns ext sessions session_id text).2 session_id
      = some (lastN (2 * maxTurns + 1)
          (getOrCreate sessions session_id ++
            [⟨Role.user, text⟩, ⟨Role.assistant, r⟩])) := by
  unfold chatWith
  rw [hok]
  simp [storePut, userAppended]

/-- Version of `chatWith_ok_store` for the configured handler `chat`. -/
theorem chat_ok_store (ext : List Message → Except String String)
    (sessions : Store) (session_id text r : String)
    (hok : ext (outgoingWindow MAX_TURNS sessions session_id text) = Except.ok r) :
    (chat ext sessions session_id text).2 session_id
      = some (lastN (2 * MAX_TURNS + 1)
          (getOrCreate sessions session_id ++
            [⟨Role.user, text⟩, ⟨Role.assistant, r⟩])) :=
  chatWith_ok_store MAX_TURNS ext sessions session_id text r hok

/-- C8: below the truncation bound, two successive successful `/chat`
calls on the same session with different texts leave the stored history
extended by the four messages of the two turns, in call order, so both
user texts appear as distinct entries. -/
theorem C8_two_turns_in_order (ext : List Message → Except String String)
    (sessions : Store) (session_id t1 t2 r1 r2 : String)
    (hne : t1 ≠ t2)
    (hlen : (getOrCreate sessions session_id).length + 4 ≤ 2 * MAX_TURNS + 1)
    (h1 : ext (outgoingWindow MAX_TURNS sessions session_id t1) = Except.ok r1)
    (h2 : ext (outgoingWindow MAX_TURNS (chat ext sessions session_id t1).2 session_id t2)
      = Except.ok r2) :
    (chat ext (chat ext sessions session_id t1).2 session_id t2).2 session_id
      = some (getOrCreate sessions session_id ++
          [⟨Role.user, t1⟩, ⟨Role.assistant, r1⟩, ⟨Role.user, t2⟩, ⟨Role.assistant, r2⟩]) ∧
    (⟨Role.user, t1⟩ : Message) ≠ ⟨Role.user, t2⟩ := by
  have hs1 : (chat ext sessions session_id t1).2 session_id
      = some (getOrCreate sessions session_id ++
          [⟨Role.user, t1⟩, ⟨Role.assistant, r1⟩]) := by
    rw [chat_ok_store ext sessions session_id t1 r1 h1, lastN_of_le (by simp; omega)]
  have hg1 : getOrCreate (chat ext sessions session_id t1).2 session_id
      = getOrCreate sessions session_id ++ [⟨Role.user, t1⟩, ⟨Role.assistant, r1⟩] :=
    getOrCreate_of_stored hs1 (by simp)
  refine ⟨?_, by simpa using hne⟩
  rw [chat_ok_store ext _ session_id t2 r2 h2, hg1, List.append_assoc,
    lastN_of_le (by simp; omega)]
  simp

/-- C8 witness at a concrete input: two turns on a fresh session. -/
theorem C8_two_turns_in_order_witness :
    (chat replyByLength (chat replyByLength emptyStore "s" "a").2 "s" "b").2 "s"
      = some (getOrCreate emptyStore "s" ++
          [⟨Role.user, "a"⟩, ⟨Role.assistant, "R2"⟩, ⟨Role.user, "b"⟩,
            ⟨Role.assistant, "R4"⟩]) ∧
    (⟨Role.user, "a"⟩ : Message) ≠ ⟨Role.user, "b"⟩ :=
  C8_two_turns_in_order replyByLength emptyStore "s" "a" "b" "R2" "R4"
    (by decide) (by simp [getOrCreate, emptyStore, MAX_TURNS]) rfl rfl

/-- Length invariant of the stored history under successful turns: from a
stored non-empty history of length at most the window bound, `k` further
successful turns leave the session stored with length
`min (previous + 2k) (2*MAX_TURNS+1)`. -/
theorem runTurns_length_aux (ext : List Message → Except String String)
    (hext : ∀ msgs, ∃ r, ext msgs = Except.ok r) (session_id : String) :
    ∀ (ts : List String) (sessions : Store) (h : History),
      sessions session_id = some h → h ≠ [] → h.length ≤ 2 * MAX_TURNS + 1 →
      ∃ h2, runTurns MAX_TURNS ext session_id ts sessions session_id = some h2 ∧
        h2.length = min (h.length + 2 * ts.length) (2 * MAX_TURNS + 1) := by
  intro ts
  induction ts with
  | nil =>
    intro sessions h hs hne hub
    refine ⟨h, by simpa [runTurns] using hs, ?_⟩
    simp
    omega
  | cons t ts ih =>
    intro sessions h hs hne hub
    obtain ⟨r, hr⟩ := hext (outgoingWindow MAX_TURNS sessions session_id t)
    have hstep : (chatWith MAX_TURNS ext sessions session_id t).2 session_id
        = some (lastN (2 * MAX_TURNS + 1)
            (h ++ [⟨Role.user, t⟩, ⟨Role.assistant, r⟩])) := by
      rw [chatWith_ok_store MAX_TURNS ext sessions session_id t r hr,
        getOrCreate_of_stored hs hne]
    have hlen1 : (lastN (2 * MAX_TURNS + 1)
        (h ++ [⟨Role.user, t⟩, ⟨Role.assistant, r⟩])).length
          = min (2 * MAX_TURNS + 1) (h.length + 2) := by
      rw [lastN_length]
      simp
    have hne1 : lastN (2 * MAX_TURNS + 1)
        (h ++ [⟨Role.user, t⟩, ⟨Role.assistant, r⟩]) ≠ [] := by
      intro hcontra
      rw [hcontra] at hlen1
      simp at hlen1
      omega
    obtain ⟨h2, hrun, hlen2⟩ := ih (chatWith MAX_TURNS ext sessions session_id t).2 _
      hstep hne1 (by omega)
    refine ⟨h2, by simpa [runTurns] using hrun, ?_⟩
    rw [hlen2, hlen1]
    simp
    omega

/-- C5: starting from an unseen session id, after `N ≥ 1` successful
`/chat` turns the stored history length is `min (2N+1) (2*MAX_TURNS+1)`;
in particular it never exceeds `2*MAX_TURNS+1`. -/
theorem C5_stored_length (ext : List Message → Except String String)
    (hext : ∀ msgs, ∃ r, ext msgs = Except.ok r)
    (sessions : Store) (session_id : String) (hunseen : sessions session_id = none)
    (texts : List String) (hne : texts ≠ []) :
    ∃ h, runTurns MAX_TURNS ext session_id texts sessions session_id = some h ∧
      h.length = min (2 * texts.length + 1) (2 * MAX_TURNS + 1) := by
  cases texts with
  | nil => exact absurd rfl hne
  | cons t ts =>
    obtain ⟨r, hr⟩ := hext (outgoingWindow MAX_TURNS sessions session_id t)
    have hg : getOrCreate sessions session_id = [systemMessage] := by
      simp [getOrCreate, hunseen]
    have hstep : (chatWith MAX_TURNS ext sessions session_id t).2 session_id
        = some [systemMessage, ⟨Role.user, t⟩, ⟨Role.assistant, r⟩] := by
      rw [chatWith_ok_store MAX_TURNS ext sessions session_id t r hr, hg,
        lastN_of_le (by simp [MAX_TURNS])]
      simp
    obtain ⟨h2, hrun, hlen⟩ := runTurns_length_aux ext hext session_id ts
      (chatWith MAX_TURNS ext sessions session_id t).2 _ hstep (by simp)
      (by simp [MAX_TURNS])
    refine ⟨h2, by simpa [runTurns] using hrun, ?_⟩
    rw [hlen]
    simp
    omega

/-- C5 witness at a concrete input: one successful turn on a fresh
session gives stored length `min 3 21 = 3`. -/
theorem C5_stored_length_witness :
    ∃ h, runTurns MAX_TURNS alwaysReply "s" ["hi"] emptyStore "s" = some h ∧
      h.length = min (2 * (["hi"] : List String).length + 1) (2 * MAX_TURNS + 1) :=
  C5_stored_length alwaysReply (fun _ => ⟨"r", rfl⟩) emptyStore "s" rfl ["hi"] (by simp)

/-- C2 is violated by the code: after 11 successful turns on one fresh
session (with `MAX_TURNS = 10`), the tail slice on line 99 has dropped
the system message, and the first element of the stored history is an
assistant message.  This contradicts the comment on line 91
(`system + last N user/assistant turns`): the slice does not special-case
index 0. -/
theorem C2_system_message_dropped :
    ((runTurns MAX_TURNS alwaysReply "s" (List.replicate 11 "x") emptyStore) "s").map
      (fun h => h.head?.map Message.role) = some (some Role.assistant) := by
  rfl

/-- C3 is violated by the code: with `MAX_TURNS = 2`, three successful
turns `"hi"`, `"bye"`, `"again"` on a fresh session end with the stored
history `[assistant R1, user "bye", assistant R2, user "again",
assistant R3]` — the system message was sliced out along with the oldest
user message, instead of the specified
`[system, user "bye", assistant R2, user "again", assistant R3]`.
Replies are produced by `replyByLength`, so `R1 = "R2"`, `R2 = "R4"`,
`R3 = "R5"` (named by the window length each call received). -/
theorem C3_truncation_result :
    (runTurns 2 replyByLength "s1" ["hi", "bye", "again"] emptyStore) "s1"
      = some [⟨Role.assistant, "R2"⟩, ⟨Role.user, "bye"⟩, ⟨Role.assistant, "R4"⟩,
          ⟨Role.user, "again"⟩, ⟨Role.assistant, "R5"⟩] ∧
    (runTurns 2 replyByLength "s1" ["hi", "bye", "again"] emptyStore) "s1"
      ≠ some [systemMessage, ⟨Role.user, "bye"⟩, ⟨Role.assistant, "R4"⟩,
          ⟨Role.user, "again"⟩, ⟨Role.assistant, "R5"⟩] := by
  constructor
  · rfl
  · intro hcontra
    simp [show (runTurns 2 replyByLength "s1" ["hi", "bye", "again"] emptyStore) "s1"
        = some [⟨Role.assistant, "R2"⟩, ⟨Role.user, "bye"⟩, ⟨Role.assistant, "R4"⟩,
            ⟨Role.user, "again"⟩, ⟨Role.assistant, "R5"⟩] from rfl,
      systemMessage, Message.mk.injEq] at hcontra

/-- C4 is violated by the code: once a session holds a full window of
`2*MAX_TURNS+1 = 21` messages (here after 10 successful turns), the next
outgoing window `history[-(2*MAX_TURNS+1):]` of the 22-element
user-appended history starts with the oldest retained user message, not
with the system message. -/
theorem C4_window_first_not_system :
    (outgoingWindow MAX_TURNS
        (runTurns MAX_TURNS alwaysReply "s" (List.replicate 10 "x") emptyStore)
        "s" "y").head?.map Message.role = some Role.user := by
  rfl
